import Mathlib

/-!
Verification development for the wearable-analytics ingestion pipeline
(`scripts/load_physiological_data.py`).

Shallow embedding conventions:
* Timestamps are rationals (seconds since the Unix epoch, UTC); `timedelta`
  addition is rational addition.
* Floating-point values are modelled as rationals.
* The sample matrix of a decoded sensor file is a `List (List ℚ)` (rows of
  columns); out-of-range column access is modelled with `List.getD` (the
  theorems carry row-shape hypotheses matching the shapes the source
  assumes).
* The BigQuery store is a `Store` structure; an append-only insert appends
  to the corresponding list.  Exceptions with external state are modelled
  as `Except Store Store`: the `error` branch carries the store at the
  moment the exception propagates (writes already acknowledged remain).
* Library parsers (`float(...)`, `pd.to_datetime`) are external
  collaborators, modelled as universally quantified parameters.
-/

namespace Wearable

/-- One row of `fact_physiological_measurements`
(`MeasurementRecord` of the spec). -/
structure MeasurementRecord where
  measurement_id : String
  subject_id : String
  session_id : String
  measurement_timestamp : ℚ
  signal_type : String
  value : ℚ
  session_type : String
  data_quality_flag : String
  deriving Repr, DecidableEq

/-- One row of `dim_sessions` (`SessionMetadataRecord` of the spec).
`session_date` is modelled as the UTC day number of the start instant. -/
structure SessionMetadata where
  session_id : String
  subject_id : String
  session_type : String
  protocol_version : String
  session_date : Int
  session_start_time : ℚ
  session_end_time : ℚ
  duration_minutes : ℚ
  data_quality_notes : Option String
  deriving Repr, DecidableEq

/-- The analytical store: the two append-only tables the loader writes. -/
structure Store where
  measurements : List MeasurementRecord
  sessions : List SessionMetadata
  deriving Repr, DecidableEq

/-- The static `KNOWN_ISSUES` table of `EmpaticaDataLoader`, verbatim. -/
def KNOWN_ISSUES : List (String × List (String × String)) :=
  [("STRESS",
     [("S02", "duplicated_data"),
      ("f07", "invalid_signals_no_cover_removed"),
      ("f14", "split_data")]),
   ("AEROBIC",
     [("S03", "incomplete_procedure"),
      ("S07", "incomplete_procedure"),
      ("S11", "split_data"),
      ("S12", "test_not_performed")]),
   ("ANAEROBIC",
     [("S06", "incomplete_procedure"),
      ("S16", "split_data")])]

/-- `KNOWN_ISSUES.get(session_type, {})[subject_id]`: the issue tag
recorded for a (session_type, subject_id) pair, if any. -/
def lookupIssue (session_type subject_id : String) : Option String :=
  ((KNOWN_ISSUES.lookup session_type).getD []).lookup subject_id

/-- `EmpaticaDataLoader.should_skip_subject`, mirrored branch for branch. -/
def should_skip_subject (subject_id session_type : String)
    (include_problematic : Bool) : Bool × Option String :=
  match lookupIssue session_type subject_id with
  | none => (false, none)
  | some issue =>
    if issue = "test_not_performed" ∨ issue = "invalid_signals_no_cover_removed" then
      (true, some ("Excluded: " ++ issue))
    else if ¬ include_problematic ∧
        (issue = "incomplete_procedure" ∨ issue = "duplicated_data" ∨
         issue = "split_data") then
      (true, some ("Skipped (use --include-problematic to load): " ++ issue))
    else
      (false, some issue)

/-- The axis/column pairs of the accelerometer loop:
`[('ACC_X', 0), ('ACC_Y', 1), ('ACC_Z', 2)]`. -/
def accAxes : List (String × Nat) := [("ACC_X", 0), ("ACC_Y", 1), ("ACC_Z", 2)]

/-- `EmpaticaDataLoader.process_single_signal`, given the decoded
`(start_time, sample_rate, data)` triple returned by `parse_empatica_csv`.
The three branches mirror the Python `if signal_type == 'ACC' / elif
signal_type == 'IBI' / else`.  `data.iloc[i, c]` is `row.getD c 0`. -/
def process_single_signal (start_time sample_rate : ℚ) (data : List (List ℚ))
    (subject_id session_id signal_type session_type : String) :
    List MeasurementRecord :=
  if signal_type = "ACC" then
    data.enum.flatMap fun p =>
      accAxes.map fun ax =>
        { measurement_id := session_id ++ "_" ++ ax.1 ++ "_" ++ toString p.1
          subject_id := subject_id
          session_id := session_id
          measurement_timestamp := start_time + (p.1 : ℚ) / sample_rate
          signal_type := ax.1
          value := p.2.getD ax.2 0 / 64
          session_type := session_type
          data_quality_flag := "VALID" }
  else if signal_type = "IBI" then
    data.enum.map fun p =>
      { measurement_id := session_id ++ "_IBI_" ++ toString p.1
        subject_id := subject_id
        session_id := session_id
        measurement_timestamp := start_time + p.2.getD 0 0
        signal_type := "IBI"
        value := p.2.getD 1 0
        session_type := session_type
        data_quality_flag := "VALID" }
  else
    data.enum.map fun p =>
      { measurement_id := session_id ++ "_" ++ signal_type ++ "_" ++ toString p.1
        subject_id := subject_id
        session_id := session_id
        measurement_timestamp := start_time + (p.1 : ℚ) / sample_rate
        signal_type := signal_type
        value := p.2.getD 0 0
        session_type := session_type
        data_quality_flag := "VALID" }

/-- `subject_id.startswith('S')`: the prefix test, modelled on the
character sequence so that it evaluates on concrete inputs. -/
def strStartsWith (s p : String) : Bool := p.data.isPrefixOf s.data

/-- `EmpaticaDataLoader.create_session_metadata`: the `dim_sessions` row
built from the combined records of one subject-session.  The source first
extracts `df['measurement_timestamp']`; when the combined set holds no
record, `pd.concat` of record-less frames has produced a column-less
DataFrame, the column access raises an uncaught `KeyError` (the error
branch here) and nothing is written.  Otherwise the column is non-empty,
its min/max are the `Series.min`/`Series.max` folds, and the row is
built.  `session_date` (`min_time.date()`) is the UTC day number of the
start instant. -/
def create_session_metadata (session_id subject_id session_type : String)
    (df : List MeasurementRecord) (quality_note : Option String) :
    Except String SessionMetadata :=
  match df.map (·.measurement_timestamp) with
  | [] => Except.error "KeyError: measurement_timestamp"
  | t :: ts =>
    let min_time := ts.foldl min t
    let max_time := ts.foldl max t
    Except.ok
      { session_id := session_id
        subject_id := subject_id
        session_type := session_type
        protocol_version := if strStartsWith subject_id "S" then "V1" else "V2"
        session_date := ⌊min_time / 86400⌋
        session_start_time := min_time
        session_end_time := max_time
        duration_minutes := (max_time - min_time) / 60
        data_quality_notes := quality_note }

/-- `int(np.ceil(len(df) / batch_size))` for a positive batch size. -/
def numBatches (n batch_size : Nat) : Nat := (n + batch_size - 1) / batch_size

/-- The i-th slice `df.iloc[i*B : min((i+1)*B, len(df))]` of the upload
loop. -/
def batchSlice (df : List MeasurementRecord) (B i : Nat) :
    List MeasurementRecord :=
  (df.drop (i * B)).take (min ((i + 1) * B) df.length - i * B)

/-- The ordered list of chunks the upload loop iterates over. -/
def batches (df : List MeasurementRecord) (B : Nat) :
    List (List MeasurementRecord) :=
  (List.range (numBatches df.length B)).map (batchSlice df B)

/-- The sequential chunk-upload loop of `upload_to_bigquery`.  `ok i` is
the outcome the store reports for the i-th
`load_table_from_dataframe(...).result()` call; each call completes
before the next is issued; on the first failing chunk the exception
propagates carrying the store as it stands (previously acknowledged
chunks remain appended, no rollback). -/
def uploadChunksFrom (ok : Nat → Bool) :
    Nat → Store → List (List MeasurementRecord) → Except Store Store
  | _, store, [] => Except.ok store
  | i, store, b :: rest =>
    if ok i then
      uploadChunksFrom ok (i + 1)
        { store with measurements := store.measurements ++ b } rest
    else
      Except.error store

/-- `EmpaticaDataLoader.upload_to_bigquery` (append-only inserts into
`fact_physiological_measurements`). -/
def upload_to_bigquery (store : Store) (df : List MeasurementRecord)
    (batch_size : Nat) (ok : Nat → Bool) : Except Store Store :=
  uploadChunksFrom ok 0 store (batches df batch_size)

/-- The ordered candidate list of `_find_dataset_root`; `/` on `Path`
objects is modelled as string concatenation with a separator. -/
def possible_paths (base : String) : List String :=
  [base ++ "/wearable-exam-stress-1.0.1",
   base ++ "/physionet.org/files/wearable-exam-stress/1.0.1",
   base]

/-- The qualification test of one candidate:
`path.exists() and (path / 'STRESS').exists()`. -/
def rootOk (ex : String → Bool) (p : String) : Bool :=
  ex p && ex (p ++ "/STRESS")

/-- The probing loop of `_find_dataset_root` over a candidate list. -/
def findFirstRoot (ex : String → Bool) : List String → Option String
  | [] => none
  | p :: rest => if rootOk ex p then some p else findFirstRoot ex rest

/-- `EmpaticaDataLoader._find_dataset_root`.  `ex` is the read-only
filesystem existence predicate (`Path.exists`); the `error` branch is the
exception the method raises when no candidate qualifies (the class the
code uses is Python's built-in `FileNotFoundError`; the spec names this
failure kind `DatasetNotFoundError`). -/
def find_dataset_root (ex : String → Bool) (base : String) :
    Except String String :=
  match findFirstRoot ex (possible_paths base) with
  | some p => Except.ok p
  | none => Except.error ("Could not find dataset in " ++ base ++
      ". Expected to find STRESS/, AEROBIC/, ANAEROBIC/ directories.")

/-- Result of `pd.to_datetime` on a datetime string: either a
timezone-aware instant, or a naive wall-clock reading (expressed as the
epoch value it denotes when read as UTC). -/
inductive ParsedDatetime where
  | aware (instant : ℚ)
  | naive (wallclock : ℚ)

/-- `start_time.tz_localize('UTC')`: interpreting a naive wall-clock
reading as UTC yields that same epoch value (UTC offset 0). -/
def tz_localize_utc (wallclock : ℚ) : ℚ := wallclock

/-- `pd.to_datetime(x, unit='s', utc=True)` on an epoch-seconds float:
the UTC instant with that epoch value. -/
def epoch_to_utc (x : ℚ) : ℚ := x

/-- The start-time parse of `parse_empatica_csv`: try `float(...)` first;
only if that raises, try `pd.to_datetime`, localizing to UTC when the
result carries no zone; if both fail, raise `DataQualityError` naming the
raw value.  `floatParse` and `dtParse` model the two library parsers. -/
def parse_start_time (floatParse : String → Option ℚ)
    (dtParse : String → Option ParsedDatetime) (first_value : String) :
    Except String ℚ :=
  match floatParse first_value with
  | some x => Except.ok (epoch_to_utc x)
  | none =>
    match dtParse first_value with
    | some (ParsedDatetime.aware t) => Except.ok t
    | some (ParsedDatetime.naive w) => Except.ok (tz_localize_utc w)
    | none => Except.error ("Cannot parse start time: " ++ first_value)

/-- A raw sensor file as `pd.read_csv(file_path, header=None)` sees it:
row 0 holds the start-time cell, row 1 the sample rate, rows 2.. the
sample matrix (`df.iloc[2:]`). -/
structure RawFile where
  first_value : String
  sample_rate : ℚ
  rows : List (List ℚ)

/-- `EmpaticaDataLoader.parse_empatica_csv`. -/
def parse_empatica_csv (floatParse : String → Option ℚ)
    (dtParse : String → Option ParsedDatetime) (f : RawFile) :
    Except String (ℚ × ℚ × List (List ℚ)) :=
  match parse_start_time floatParse dtParse f.first_value with
  | Except.error e => Except.error e
  | Except.ok t => Except.ok (t, f.sample_rate, f.rows)

/-- Decidable equality of `Except` results, for evaluating the embedded
loader on concrete inputs. -/
instance {ε α : Type} [DecidableEq ε] [DecidableEq α] :
    DecidableEq (Except ε α) := fun x y =>
  match x, y with
  | Except.error a, Except.error b =>
    if h : a = b then isTrue (by rw [h])
    else isFalse (fun hc => h (by cases hc; rfl))
  | Except.error _, Except.ok _ => isFalse (fun hc => Except.noConfusion hc)
  | Except.ok _, Except.error _ => isFalse (fun hc => Except.noConfusion hc)
  | Except.ok a, Except.ok b =>
    if h : a = b then isTrue (by rw [h])
    else isFalse (fun hc => h (by cases hc; rfl))

/-- The `signal_files` table of `load_subject_session`. -/
def signal_files : List (String × String) :=
  [("BVP", "BVP.csv"), ("EDA", "EDA.csv"), ("TEMP", "TEMP.csv"),
   ("ACC", "ACC.csv"), ("HR", "HR.csv"), ("IBI", "IBI.csv")]

/-- One iteration of the per-signal loop of `load_subject_session`: a
missing file is skipped (`none`); a file whose processing raises (e.g. a
`DataQualityError` from the start-time parse) is caught and skipped
(`none`); a processed file contributes its record list, which may be
empty. -/
def processFile (floatParse : String → Option ℚ)
    (dtParse : String → Option ParsedDatetime) (env : String → Option RawFile)
    (subject_id session_id session_type : String) (entry : String × String) :
    Option (List MeasurementRecord) :=
  match env entry.2 with
  | none => none
  | some raw =>
    match parse_empatica_csv floatParse dtParse raw with
    | Except.error _ => none
    | Except.ok (t, r, d) =>
      some (process_single_signal t r d subject_id session_id entry.1
        session_type)

/-- `EmpaticaDataLoader.load_subject_session`.  `env` maps a file name to
its raw contents (`none` = file absent), `dirExists` models
`base_path.exists()`, `ok` the per-chunk upload outcomes.  The result is
`ok (store, none)` for a skipped or empty subject-session (the Python
`return None`), `ok (store', some combined)` for a loaded one, and
`error store'` when an exception propagates uncaught: a chunk upload
failure, or the metadata step's `KeyError` on a record-less combined set
(which fires before any metadata write, leaving the sessions table
untouched). -/
def load_subject_session (floatParse : String → Option ℚ)
    (dtParse : String → Option ParsedDatetime) (env : String → Option RawFile)
    (dirExists : Bool) (subject_id session_type : String)
    (include_problematic : Bool) (ok : Nat → Bool) (store : Store) :
    Except Store (Store × Option (List MeasurementRecord)) :=
  let sk := should_skip_subject subject_id session_type include_problematic
  if sk.1 then Except.ok (store, none)
  else if ¬ dirExists then Except.ok (store, none)
  else
    let session_id := subject_id ++ "_" ++ session_type
    let all_data := signal_files.filterMap
      (processFile floatParse dtParse env subject_id session_id session_type)
    if all_data.isEmpty then Except.ok (store, none)
    else
      let combined := all_data.flatten
      match upload_to_bigquery store combined 50000 ok with
      | Except.error s => Except.error s
      | Except.ok s₁ =>
        match create_session_metadata session_id subject_id session_type
            combined sk.2 with
        | Except.error _ => Except.error s₁
        | Except.ok meta =>
          Except.ok ({ s₁ with sessions := s₁.sessions ++ [meta] },
            some combined)

end Wearable

namespace Wearable

/-- Positional structure of a `bind` over an enumeration whose body always
yields three elements: the block for row `i` starts at position `3*i`. -/
theorem enumFrom_flatMap_three_drop {α β : Type} (f : Nat × α → List β)
    (hf : ∀ p, (f p).length = 3) :
    ∀ (l : List α) (n i : Nat) (row : α), l[i]? = some row →
      ∃ rest, ((l.enumFrom n).flatMap f).drop (3 * i) = f (n + i, row) ++ rest := by
  intro l
  induction l with
  | nil => intro n i row h; simp at h
  | cons a tl ih =>
    intro n i row h
    cases i with
    | zero =>
      simp at h
      subst h
      exact ⟨(tl.enumFrom (n + 1)).flatMap f, by simp [List.enumFrom]⟩
    | succ i =>
      simp at h
      obtain ⟨rest, hrest⟩ := ih (n + 1) i row h
      refine ⟨rest, ?_⟩
      have h3 : 3 * (i + 1) = (f (n, a)).length + 3 * i := by
        rw [hf]; ring
      calc ((( a :: tl).enumFrom n).flatMap f).drop (3 * (i + 1))
          = (f (n, a) ++ (tl.enumFrom (n + 1)).flatMap f).drop
              ((f (n, a)).length + 3 * i) := by
            rw [h3]; simp [List.enumFrom]
        _ = ((tl.enumFrom (n + 1)).flatMap f).drop (3 * i) := by
            rw [List.drop_append]
        _ = f (n + 1 + i, row) ++ rest := hrest
        _ = f (n + (i + 1), row) ++ rest := by ring_nf

/-- Length of a `flatMap` whose body always yields three elements. -/
theorem flatMap_three_length {α β : Type} (f : α → List β)
    (hf : ∀ p, (f p).length = 3) :
    ∀ l : List α, (l.flatMap f).length = 3 * l.length := by
  intro l
  induction l with
  | nil => simp
  | cons a tl ih => simp [hf, ih]; ring

/-- C1: `should_skip_subject` implements the three-case quality policy:
no entry gives `(false, none)`; a hard issue (`test_not_performed`,
`invalid_signals_no_cover_removed`) gives `(true, note)` regardless of
`include_problematic`; a soft issue (`incomplete_procedure`,
`duplicated_data`, `split_data`) gives `(true, note)` when
`include_problematic` is false and `(false, some issue)` — the tag
preserved as the note — when it is true. -/
theorem should_skip_subject_policy (subject_id session_type : String)
    (inc : Bool) :
    (lookupIssue session_type subject_id = none →
      should_skip_subject subject_id session_type inc = (false, none)) ∧
    (∀ issue, lookupIssue session_type subject_id = some issue →
      ((issue = "test_not_performed" ∨
        issue = "invalid_signals_no_cover_removed") →
        should_skip_subject subject_id session_type inc =
          (true, some ("Excluded: " ++ issue))) ∧
      ((issue = "incomplete_procedure" ∨ issue = "duplicated_data" ∨
        issue = "split_data") →
        should_skip_subject subject_id session_type inc =
          (if inc then (false, some issue)
           else (true, some
             ("Skipped (use --include-problematic to load): " ++ issue))))) := by
  constructor
  · intro h
    simp [should_skip_subject, h]
  · intro issue h
    constructor
    · intro hhard
      simp [should_skip_subject, h, if_pos hhard]
    · intro hsoft
      have hnothard : ¬ (issue = "test_not_performed" ∨
          issue = "invalid_signals_no_cover_removed") := by
        rcases hsoft with h1 | h1 | h1 <;> subst h1 <;> decide
      cases inc with
      | true =>
        simp [should_skip_subject, h, if_neg hnothard]
      | false =>
        simp [should_skip_subject, h, if_neg hnothard, hsoft]

/-- Witness for C1: subject S02 in STRESS carries the soft issue
`duplicated_data`; with `include_problematic = true` it is loaded with
the tag preserved as the note. -/
theorem should_skip_subject_policy_witness :
    should_skip_subject "S02" "STRESS" true = (false, some "duplicated_data") := by
  have h := ((should_skip_subject_policy "S02" "STRESS" true).2
    "duplicated_data" (by decide)).2 (by decide)
  simpa using h

/-- C2: for a uniform single-column signal (BVP, EDA, TEMP, HR) with start
time `T`, sample rate `R` and `n` sample rows, `process_single_signal`
produces exactly `n` records, and record `i` has timestamp `T + i / R`,
value equal to the raw column value unconverted, and `measurement_id`
`session_id ++ "_" ++ signal_type ++ "_" ++ i`. -/
theorem process_uniform_single_column (T R : ℚ) (data : List (List ℚ))
    (subject_id session_id signal_type session_type : String)
    (hst : signal_type = "BVP" ∨ signal_type = "EDA" ∨
           signal_type = "TEMP" ∨ signal_type = "HR") :
    (process_single_signal T R data subject_id session_id signal_type
        session_type).length = data.length ∧
    (∀ (i : Nat) (row : List ℚ), data[i]? = some row →
      (process_single_signal T R data subject_id session_id signal_type
          session_type)[i]? = some
        ({ measurement_id := session_id ++ "_" ++ signal_type ++ "_" ++ toString i
           subject_id := subject_id
           session_id := session_id
           measurement_timestamp := T + (i : ℚ) / R
           signal_type := signal_type
           value := row.getD 0 0
           session_type := session_type
           data_quality_flag := "VALID" } : MeasurementRecord)) := by
  have hacc : signal_type ≠ "ACC" := by
    rcases hst with h | h | h | h <;> subst h <;> decide
  have hibi : signal_type ≠ "IBI" := by
    rcases hst with h | h | h | h <;> subst h <;> decide
  rw [process_single_signal, if_neg hacc, if_neg hibi]
  constructor
  · simp [List.enum_length]
  · intro i row h
    rw [List.getElem?_map, List.getElem?_enum, h]
    rfl

/-- Witness for C2: a two-row BVP file at 4 Hz starting at 100 s. -/
theorem process_uniform_single_column_witness :
    (process_single_signal 100 4 [[7], [9]] "S01" "S01_STRESS" "BVP"
        "STRESS").length = 2 ∧
    (process_single_signal 100 4 [[7], [9]] "S01" "S01_STRESS" "BVP"
        "STRESS")[1]? = some
      ({ measurement_id := "S01_STRESS_BVP_1"
         subject_id := "S01"
         session_id := "S01_STRESS"
         measurement_timestamp := 100 + (1 : ℚ) / 4
         signal_type := "BVP"
         value := 9
         session_type := "STRESS"
         data_quality_flag := "VALID" } : MeasurementRecord) := by
  have h := process_uniform_single_column 100 4 [[7], [9]] "S01" "S01_STRESS"
    "BVP" "STRESS" (Or.inl rfl)
  exact ⟨h.1, by simpa using h.2 1 [9] rfl⟩

/-- C3: for a triaxial (ACC) file with start time `T`, sample rate `R` and
`n` rows, `process_single_signal` produces exactly `3 * n` records, and
row `i` contributes the block at positions `3*i, 3*i+1, 3*i+2`: one record
per axis `ACC_X`, `ACC_Y`, `ACC_Z`, all three with the identical timestamp
`T + i / R`, values the raw column values divided by 64, and the row index
`i` in each `measurement_id`. -/
theorem process_triaxial (T R : ℚ) (data : List (List ℚ))
    (subject_id session_id session_type : String) :
    (process_single_signal T R data subject_id session_id "ACC"
        session_type).length = 3 * data.length ∧
    (∀ (i : Nat) (row : List ℚ), data[i]? = some row →
      ∃ rest, (process_single_signal T R data subject_id session_id "ACC"
          session_type).drop (3 * i) =
        [{ measurement_id := session_id ++ "_ACC_X_" ++ toString i
           subject_id := subject_id
           session_id := session_id
           measurement_timestamp := T + (i : ℚ) / R
           signal_type := "ACC_X"
           value := row.getD 0 0 / 64
           session_type := session_type
           data_quality_flag := "VALID" },
         { measurement_id := session_id ++ "_ACC_Y_" ++ toString i
           subject_id := subject_id
           session_id := session_id
           measurement_timestamp := T + (i : ℚ) / R
           signal_type := "ACC_Y"
           value := row.getD 1 0 / 64
           session_type := session_type
           data_quality_flag := "VALID" },
         { measurement_id := session_id ++ "_ACC_Z_" ++ toString i
           subject_id := subject_id
           session_id := session_id
           measurement_timestamp := T + (i : ℚ) / R
           signal_type := "ACC_Z"
           value := row.getD 2 0 / 64
           session_type := session_type
           data_quality_flag := "VALID" }] ++ rest) := by
  rw [process_single_signal, if_pos rfl]
  constructor
  · rw [flatMap_three_length _ (by intro p; simp [accAxes]), List.enum_length]
  · intro i row h
    have := enumFrom_flatMap_three_drop
      (fun p => accAxes.map fun ax =>
        ({ measurement_id := session_id ++ "_" ++ ax.1 ++ "_" ++ toString p.1
           subject_id := subject_id
           session_id := session_id
           measurement_timestamp := T + (p.1 : ℚ) / R
           signal_type := ax.1
           value := p.2.getD ax.2 0 / 64
           session_type := session_type
           data_quality_flag := "VALID" } : MeasurementRecord))
      (by intro p; simp [accAxes]) data 0 i row h
    obtain ⟨rest, hrest⟩ := this
    refine ⟨rest, ?_⟩
    have henum : data.enum = data.enumFrom 0 := rfl
    rw [henum, hrest]
    simp [accAxes]
    have hx : ("_ACC_X_" : String) = "_" ++ ("ACC_X" ++ "_") := rfl
    have hy : ("_ACC_Y_" : String) = "_" ++ ("ACC_Y" ++ "_") := rfl
    have hz : ("_ACC_Z_" : String) = "_" ++ ("ACC_Z" ++ "_") := rfl
    rw [hx, hy, hz]
    simp [String.append_assoc]

/-- Witness for C3: a one-row ACC file at 32 Hz starting at 10 s. -/
theorem process_triaxial_witness :
    (process_single_signal 10 32 [[64, 128, 32]] "S01" "S01_STRESS" "ACC"
        "STRESS").length = 3 ∧
    ∃ rest, (process_single_signal 10 32 [[64, 128, 32]] "S01" "S01_STRESS"
        "ACC" "STRESS").drop 0 =
      [{ measurement_id := "S01_STRESS_ACC_X_0"
         subject_id := "S01"
         session_id := "S01_STRESS"
         measurement_timestamp := 10 + (0 : ℚ) / 32
         signal_type := "ACC_X"
         value := (64 : ℚ) / 64
         session_type := "STRESS"
         data_quality_flag := "VALID" },
       { measurement_id := "S01_STRESS_ACC_Y_0"
         subject_id := "S01"
         session_id := "S01_STRESS"
         measurement_timestamp := 10 + (0 : ℚ) / 32
         signal_type := "ACC_Y"
         value := (128 : ℚ) / 64
         session_type := "STRESS"
         data_quality_flag := "VALID" },
       { measurement_id := "S01_STRESS_ACC_Z_0"
         subject_id := "S01"
         session_id := "S01_STRESS"
         measurement_timestamp := 10 + (0 : ℚ) / 32
         signal_type := "ACC_Z"
         value := (32 : ℚ) / 64
         session_type := "STRESS"
         data_quality_flag := "VALID" }] ++ rest := by
  have h := process_triaxial 10 32 [[64, 128, 32]] "S01" "S01_STRESS" "STRESS"
  exact ⟨h.1, by simpa using h.2 0 [64, 128, 32] rfl⟩

/-- C4: for an interval (IBI) file with start time `T` and `n` two-column
rows, `process_single_signal` produces exactly `n` records; record `i` has
timestamp `T + offset_i` with `offset_i` read from column 0 of row `i` and
value read from column 1; and the output is identical for any two sample
rates. -/
theorem process_interval (T R : ℚ) (data : List (List ℚ))
    (subject_id session_id session_type : String) :
    (process_single_signal T R data subject_id session_id "IBI"
        session_type).length = data.length ∧
    (∀ (i : Nat) (row : List ℚ), data[i]? = some row →
      (process_single_signal T R data subject_id session_id "IBI"
          session_type)[i]? = some
        ({ measurement_id := session_id ++ "_IBI_" ++ toString i
           subject_id := subject_id
           session_id := session_id
           measurement_timestamp := T + row.getD 0 0
           signal_type := "IBI"
           value := row.getD 1 0
           session_type := session_type
           data_quality_flag := "VALID" } : MeasurementRecord)) ∧
    (∀ R' : ℚ,
      process_single_signal T R data subject_id session_id "IBI"
        session_type =
      process_single_signal T R' data subject_id session_id "IBI"
        session_type) := by
  refine ⟨?_, ?_, ?_⟩
  · simp [process_single_signal, List.enum_length]
  · intro i row h
    rw [process_single_signal, if_neg (by decide), if_pos rfl]
    rw [List.getElem?_map, List.getElem?_enum, h]
    rfl
  · intro R'
    simp [process_single_signal]

/-- Witness for C4: a one-row IBI file; the offset column drives the
timestamp and the sample rate is irrelevant. -/
theorem process_interval_witness :
    (process_single_signal 100 4 [[(5 : ℚ)/2, (7 : ℚ)/10]] "S01" "S01_STRESS"
        "IBI" "STRESS")[0]? = some
      ({ measurement_id := "S01_STRESS_IBI_0"
         subject_id := "S01"
         session_id := "S01_STRESS"
         measurement_timestamp := 100 + (5 : ℚ)/2
         signal_type := "IBI"
         value := (7 : ℚ)/10
         session_type := "STRESS"
         data_quality_flag := "VALID" } : MeasurementRecord) := by
  have h := process_interval 100 4 [[(5 : ℚ)/2, (7 : ℚ)/10]] "S01"
    "S01_STRESS" "STRESS"
  simpa using h.2.1 0 [(5 : ℚ)/2, (7 : ℚ)/10] rfl

/-- A fold of `min` never exceeds its initial accumulator. -/
theorem foldl_min_le_init (l : List ℚ) : ∀ a : ℚ, l.foldl min a ≤ a := by
  induction l with
  | nil => intro a; simp
  | cons x tl ih =>
    intro a
    calc tl.foldl min (min a x) ≤ min a x := ih (min a x)
      _ ≤ a := min_le_left a x

/-- A fold of `min` is a lower bound of the folded list. -/
theorem foldl_min_le_mem (l : List ℚ) :
    ∀ (a x : ℚ), x ∈ l → l.foldl min a ≤ x := by
  induction l with
  | nil => intro a x hx; simp at hx
  | cons y tl ih =>
    intro a x hx
    rcases List.mem_cons.mp hx with h | h
    · subst h
      calc tl.foldl min (min a x) ≤ min a x := foldl_min_le_init tl (min a x)
        _ ≤ x := min_le_right a x
    · exact ih (min a y) x h

/-- A fold of `min` returns its accumulator or a list element. -/
theorem foldl_min_cases (l : List ℚ) :
    ∀ a : ℚ, l.foldl min a = a ∨ l.foldl min a ∈ l := by
  induction l with
  | nil => intro a; simp
  | cons y tl ih =>
    intro a
    rw [List.foldl_cons]
    rcases ih (min a y) with h | h
    · rcases min_choice a y with hc | hc
      · exact Or.inl (h.trans hc)
      · exact Or.inr (by rw [h, hc]; exact List.mem_cons_self y tl)
    · exact Or.inr (List.mem_cons_of_mem y h)

/-- A fold of `max` stays above its initial accumulator. -/
theorem le_foldl_max_init (l : List ℚ) : ∀ a : ℚ, a ≤ l.foldl max a := by
  induction l with
  | nil => intro a; simp
  | cons x tl ih =>
    intro a
    calc a ≤ max a x := le_max_left a x
      _ ≤ tl.foldl max (max a x) := ih (max a x)

/-- A fold of `max` is an upper bound of the folded list. -/
theorem le_foldl_max_mem (l : List ℚ) :
    ∀ (a x : ℚ), x ∈ l → x ≤ l.foldl max a := by
  induction l with
  | nil => intro a x hx; simp at hx
  | cons y tl ih =>
    intro a x hx
    rcases List.mem_cons.mp hx with h | h
    · subst h
      calc x ≤ max a x := le_max_right a x
        _ ≤ tl.foldl max (max a x) := le_foldl_max_init tl (max a x)
    · exact ih (max a y) x h

/-- A fold of `max` returns its accumulator or a list element. -/
theorem foldl_max_cases (l : List ℚ) :
    ∀ a : ℚ, l.foldl max a = a ∨ l.foldl max a ∈ l := by
  induction l with
  | nil => intro a; simp
  | cons y tl ih =>
    intro a
    rw [List.foldl_cons]
    rcases ih (max a y) with h | h
    · rcases max_choice a y with hc | hc
      · exact Or.inl (h.trans hc)
      · exact Or.inr (by rw [h, hc]; exact List.mem_cons_self y tl)
    · exact Or.inr (List.mem_cons_of_mem y h)

/-- C6: for a non-empty combined record set, the metadata step succeeds
and the produced row's `session_start_time` is the minimum
`measurement_timestamp` over the records (an attained lower bound),
`session_end_time` is the maximum (an attained upper bound),
`duration_minutes` is their difference in minutes, and consequently
every record's timestamp lies within
`[session_start_time, session_end_time]`. -/
theorem create_session_metadata_bounds (session_id subject_id
    session_type : String) (df : List MeasurementRecord)
    (note : Option String) (hdf : df ≠ []) :
    ∃ m, create_session_metadata session_id subject_id session_type df
        note = Except.ok m ∧
      (∃ r ∈ df, r.measurement_timestamp = m.session_start_time) ∧
      (∃ r ∈ df, r.measurement_timestamp = m.session_end_time) ∧
      (∀ r ∈ df, m.session_start_time ≤ r.measurement_timestamp ∧
        r.measurement_timestamp ≤ m.session_end_time) ∧
      m.duration_minutes =
        (m.session_end_time - m.session_start_time) / 60 := by
  cases df with
  | nil => exact absurd rfl hdf
  | cons r0 rest =>
    have hred : create_session_metadata session_id subject_id session_type
        (r0 :: rest) note = Except.ok
          { session_id := session_id
            subject_id := subject_id
            session_type := session_type
            protocol_version :=
              if strStartsWith subject_id "S" then "V1" else "V2"
            session_date := ⌊(rest.map
              (·.measurement_timestamp)).foldl min r0.measurement_timestamp
              / 86400⌋
            session_start_time := (rest.map
              (·.measurement_timestamp)).foldl min r0.measurement_timestamp
            session_end_time := (rest.map
              (·.measurement_timestamp)).foldl max r0.measurement_timestamp
            duration_minutes := ((rest.map
                (·.measurement_timestamp)).foldl max r0.measurement_timestamp
              - (rest.map
                (·.measurement_timestamp)).foldl min r0.measurement_timestamp)
              / 60
            data_quality_notes := note } := by
      simp [create_session_metadata]
    refine ⟨_, hred, ?_, ?_, ?_, rfl⟩
    · rcases foldl_min_cases (rest.map (·.measurement_timestamp))
        r0.measurement_timestamp with hc | hc
      · exact ⟨r0, List.mem_cons_self r0 rest, hc.symm⟩
      · obtain ⟨r, hr, hre⟩ := List.mem_map.mp hc
        exact ⟨r, List.mem_cons_of_mem r0 hr, hre⟩
    · rcases foldl_max_cases (rest.map (·.measurement_timestamp))
        r0.measurement_timestamp with hc | hc
      · exact ⟨r0, List.mem_cons_self r0 rest, hc.symm⟩
      · obtain ⟨r, hr, hre⟩ := List.mem_map.mp hc
        exact ⟨r, List.mem_cons_of_mem r0 hr, hre⟩
    · intro r hr
      rcases List.mem_cons.mp hr with h | h
      · subst h
        exact ⟨foldl_min_le_init _ _, le_foldl_max_init _ _⟩
      · exact ⟨foldl_min_le_mem _ _ _
            (List.mem_map_of_mem (·.measurement_timestamp) h),
          le_foldl_max_mem _ _ _
            (List.mem_map_of_mem (·.measurement_timestamp) h)⟩

/-- Witness for C6: a one-record session; the metadata step succeeds and
the bounds are attained. -/
theorem create_session_metadata_bounds_witness :
    ∃ m, create_session_metadata "S01_STRESS" "S01" "STRESS"
        [⟨"m0", "S01", "S01_STRESS", 10, "HR", 70, "STRESS", "VALID"⟩]
        none = Except.ok m ∧
      (∃ r ∈ ([⟨"m0", "S01", "S01_STRESS", 10, "HR", 70, "STRESS",
          "VALID"⟩] : List MeasurementRecord),
        r.measurement_timestamp = m.session_start_time) ∧
      (∃ r ∈ ([⟨"m0", "S01", "S01_STRESS", 10, "HR", 70, "STRESS",
          "VALID"⟩] : List MeasurementRecord),
        r.measurement_timestamp = m.session_end_time) ∧
      (∀ r ∈ ([⟨"m0", "S01", "S01_STRESS", 10, "HR", 70, "STRESS",
          "VALID"⟩] : List MeasurementRecord),
        m.session_start_time ≤ r.measurement_timestamp ∧
        r.measurement_timestamp ≤ m.session_end_time) ∧
      m.duration_minutes =
        (m.session_end_time - m.session_start_time) / 60 :=
  create_session_metadata_bounds "S01_STRESS" "S01" "STRESS"
    [⟨"m0", "S01", "S01_STRESS", 10, "HR", 70, "STRESS", "VALID"⟩]
    none (by simp)

/-- Integer ceiling of a natural division, as computed by
`int(np.ceil(n / B))`, equals `(n + B - 1) / B` in natural division. -/
theorem ceil_div_eq_numBatches (n B : Nat) (hB : 0 < B) :
    ⌈(n : ℚ) / (B : ℚ)⌉ = ((numBatches n B : Nat) : ℤ) := by
  have hB' : (0 : ℚ) < (B : ℚ) := by exact_mod_cast hB
  have hmod := Nat.div_add_mod (n + B - 1) B
  have hq : numBatches n B = (n + B - 1) / B := rfl
  set q := (n + B - 1) / B with hqdef
  set r := (n + B - 1) % B with hrdef
  have hr : r < B := Nat.mod_lt _ hB
  have hsum : B * q + r + 1 = n + B := by omega
  have hsum' : (B : ℚ) * q + r + 1 = n + B := by exact_mod_cast hsum
  have hr' : (r : ℚ) < B := by exact_mod_cast hr
  have hr0 : (0 : ℚ) ≤ r := by positivity
  have hr'' : (r : ℚ) + 1 ≤ B := by exact_mod_cast hr
  rw [hq, Int.ceil_eq_iff]
  constructor
  · push_cast
    rw [lt_div_iff₀ hB']
    have hx : ((q : ℚ) - 1) * B = B * q - B := by ring
    linarith
  · push_cast
    rw [div_le_iff₀ hB']
    have hx : (q : ℚ) * B = B * q := by ring
    linarith

/-- The chunk list of a non-empty record set is its first slice followed
by the chunk list of the remainder. -/
theorem batches_eq_cons (df : List MeasurementRecord) (B : Nat) (hB : 0 < B)
    (hne : df ≠ []) :
    batches df B = df.take B :: batches (df.drop B) B := by
  have hn : 0 < df.length := List.length_pos.mpr hne
  have hnum : numBatches df.length B = numBatches (df.drop B).length B + 1 := by
    simp only [numBatches, List.length_drop]
    have hL : df.length + B - 1 = (df.length - 1) + B := by omega
    rw [hL, Nat.add_div_right _ hB]
    rcases Nat.lt_or_ge df.length B with hlt | hge
    · have h0 : df.length - B = 0 := by omega
      rw [h0]
      have h1 : (0 + B - 1) / B = 0 := Nat.div_eq_of_lt (by omega)
      have h2 : (df.length - 1) / B = 0 := Nat.div_eq_of_lt (by omega)
      rw [h1, h2]
    · rw [show df.length - B + B - 1 = df.length - 1 from by omega]
  have hslice0 : batchSlice df B 0 = df.take B := by
    simp only [batchSlice, Nat.zero_mul, List.drop_zero, Nat.sub_zero,
      Nat.one_mul]
    rw [List.take_eq_take]
    omega
  have hsliceS : ∀ i, batchSlice df B (i + 1) = batchSlice (df.drop B) B i := by
    intro i
    simp only [batchSlice, List.drop_drop, List.length_drop]
    have e1 : (i + 1) * B = i * B + B := by ring
    have e2 : (i + 1 + 1) * B = i * B + B + B := by ring
    rw [show B + i * B = (i + 1) * B from by ring]
    congr 1
    omega
  rw [batches, hnum, List.range_succ_eq_map, List.map_cons, hslice0,
    List.map_map]
  congr 1
  rw [batches]
  apply List.map_congr_left
  intro i _
  exact hsliceS i

/-- The in-order concatenation of the chunks is the original record set:
the chunks are ordered, non-overlapping and cover everything. -/
theorem batches_flatten (B : Nat) (hB : 0 < B) :
    ∀ df : List MeasurementRecord, (batches df B).flatten = df := by
  have H : ∀ (n : Nat) (df : List MeasurementRecord), df.length ≤ n →
      (batches df B).flatten = df := by
    intro n
    induction n with
    | zero =>
      intro df h
      have hdf : df = [] := List.eq_nil_of_length_eq_zero (Nat.le_zero.mp h)
      subst hdf
      have h0 : numBatches 0 B = 0 := Nat.div_eq_of_lt (by omega)
      simp [batches, h0]
    | succ n ih =>
      intro df h
      by_cases hne : df = []
      · subst hne
        have h0 : numBatches 0 B = 0 := Nat.div_eq_of_lt (by omega)
        simp [batches, h0]
      · rw [batches_eq_cons df B hB hne, List.flatten_cons]
        rw [ih (df.drop B) ?_]
        · exact List.take_append_drop B df
        · have : 0 < df.length := List.length_pos.mpr hne
          simp only [List.length_drop]
          omega
  intro df
  exact H df.length df le_rfl

/-- The first `j` chunks concatenate to the first `j * B` records, as
long as those chunks are all full. -/
theorem batches_take_flatten (B : Nat) (hB : 0 < B) :
    ∀ (j : Nat) (df : List MeasurementRecord), j * B ≤ df.length →
      ((batches df B).take j).flatten = df.take (j * B) := by
  intro j
  induction j with
  | zero => intro df _; simp
  | succ j ih =>
    intro df h
    have hBn : (j + 1) * B = j * B + B := by ring
    have hne : df ≠ [] := by
      intro he
      subst he
      simp only [List.length_nil] at h
      have : 0 < (j + 1) * B := Nat.mul_pos (by omega) hB
      omega
    rw [batches_eq_cons df B hB hne, List.take_succ_cons, List.flatten_cons]
    rw [ih (df.drop B) ?_]
    · rw [show (j + 1) * B = B + j * B from by ring, List.take_add]
    · simp only [List.length_drop]
      omega

/-- When every chunk write succeeds, the loop appends the concatenation
of all chunks and returns normally. -/
theorem uploadChunksFrom_all_ok (ok : Nat → Bool)
    (hok : ∀ j, ok j = true) :
    ∀ (cs : List (List MeasurementRecord)) (i : Nat) (store : Store),
      uploadChunksFrom ok i store cs =
        Except.ok { store with measurements := store.measurements ++ cs.flatten } := by
  intro cs
  induction cs with
  | nil => intro i store; simp [uploadChunksFrom]
  | cons c rest ih =>
    intro i store
    rw [uploadChunksFrom, if_pos (hok i), ih (i + 1)]
    simp

/-- When the write of chunk `j` fails and all earlier writes succeed, the
loop stops there: the store keeps the first `j` chunks (no rollback) and
the exception propagates. -/
theorem uploadChunksFrom_fail (ok : Nat → Bool) :
    ∀ (cs : List (List MeasurementRecord)) (j i : Nat) (store : Store),
      j < cs.length → ok (i + j) = false → (∀ k, k < j → ok (i + k) = true) →
      uploadChunksFrom ok i store cs =
        Except.error
          { store with measurements := store.measurements ++ (cs.take j).flatten } := by
  intro cs
  induction cs with
  | nil => intro j i store hj; simp at hj
  | cons c rest ih =>
    intro j i store hj hfail hprev
    cases j with
    | zero =>
      have h0 : ok i = false := by simpa using hfail
      rw [uploadChunksFrom, if_neg (by simp [h0])]
      simp
    | succ j =>
      have h0 : ok i = true := by simpa using hprev 0 (by omega)
      rw [uploadChunksFrom, if_pos h0]
      rw [ih j (i + 1) _ (by simpa using hj)
        (by rw [show i + 1 + j = i + (j + 1) from by omega]; exact hfail)
        (fun k hk => by
          rw [show i + 1 + k = i + (k + 1) from by omega]
          exact hprev (k + 1) (by omega))]
      simp

/-- The chunk-upload loop never touches the session-metadata table,
whether it returns normally or raises. -/
theorem uploadChunksFrom_sessions (ok : Nat → Bool) :
    ∀ (cs : List (List MeasurementRecord)) (i : Nat) (store : Store),
      (∀ s, uploadChunksFrom ok i store cs = Except.ok s →
        s.sessions = store.sessions) ∧
      (∀ s, uploadChunksFrom ok i store cs = Except.error s →
        s.sessions = store.sessions) := by
  intro cs
  induction cs with
  | nil =>
    intro i store
    constructor
    · intro s hs
      simp [uploadChunksFrom] at hs
      rw [← hs]
    · intro s hs
      simp [uploadChunksFrom] at hs
  | cons c rest ih =>
    intro i store
    by_cases h : ok i = true
    · constructor
      · intro s hs
        rw [uploadChunksFrom, if_pos h] at hs
        have := (ih (i + 1)
          { store with measurements := store.measurements ++ c }).1 s hs
        simpa using this
      · intro s hs
        rw [uploadChunksFrom, if_pos h] at hs
        have := (ih (i + 1)
          { store with measurements := store.measurements ++ c }).2 s hs
        simpa using this
    · constructor
      · intro s hs
        rw [uploadChunksFrom, if_neg h] at hs
        simp at hs
      · intro s hs
        rw [uploadChunksFrom, if_neg h] at hs
        simp at hs
        rw [← hs]

/-- C7: `upload_to_bigquery` with the default chunk size 50,000 splits
the record set into exactly `ceil(n / 50000)` ordered, non-overlapping
chunks whose in-order concatenation is the original record set; it writes
the chunks sequentially as append-only inserts; when every chunk write
succeeds the store has gained exactly the record set, and when chunk `j`
is the first to fail the already-written chunks (the first `j * 50000`
records) remain in the store and the failure propagates to the caller. -/
theorem upload_to_bigquery_spec (store : Store)
    (df : List MeasurementRecord) (ok : Nat → Bool) :
    (((batches df 50000).length : ℤ) = ⌈(df.length : ℚ) / 50000⌉) ∧
    (batches df 50000).flatten = df ∧
    ((∀ j, ok j = true) → upload_to_bigquery store df 50000 ok =
      Except.ok { store with measurements := store.measurements ++ df }) ∧
    (∀ j, j < (batches df 50000).length → ok j = false →
      (∀ k, k < j → ok k = true) →
      upload_to_bigquery store df 50000 ok =
        Except.error
          { store with
            measurements := store.measurements ++ df.take (j * 50000) }) := by
  have h50 : (0 : Nat) < 50000 := by omega
  refine ⟨?_, batches_flatten 50000 h50 df, ?_, ?_⟩
  · rw [show ((50000 : ℚ)) = ((50000 : ℕ) : ℚ) from by norm_num,
      ceil_div_eq_numBatches df.length 50000 h50]
    simp [batches]
  · intro hok
    rw [upload_to_bigquery, uploadChunksFrom_all_ok ok hok,
      batches_flatten 50000 h50 df]
  · intro j hj hfail hprev
    rw [upload_to_bigquery,
      uploadChunksFrom_fail ok (batches df 50000) j 0 store hj
        (by simpa using hfail) (fun k hk => by simpa using hprev k hk)]
    have hjB : j * 50000 ≤ df.length := by
      simp only [batches, List.length_map, List.length_range, numBatches] at hj
      have := (Nat.le_div_iff_mul_le h50).mp (Nat.succ_le_of_lt hj)
      have he : (j + 1) * 50000 = j * 50000 + 50000 := by ring
      omega
    rw [batches_take_flatten 50000 h50 j df hjB]

/-- Witness for C7: one record, failing on the first chunk: the store is
left as it was and the error propagates. -/
theorem upload_to_bigquery_spec_witness :
    upload_to_bigquery ⟨[], []⟩
        [⟨"m0", "S01", "S01_STRESS", 10, "HR", 70, "STRESS", "VALID"⟩]
        50000 (fun _ => false) =
      Except.error ⟨[], []⟩ := by
  have h := (upload_to_bigquery_spec ⟨[], []⟩
    [⟨"m0", "S01", "S01_STRESS", 10, "HR", 70, "STRESS", "VALID"⟩]
    (fun _ => false)).2.2.2 0 (by decide) rfl (fun k hk => by omega)
  simpa using h

/-- The probing loop returns the first qualifying candidate. -/
theorem findFirstRoot_some_iff (ex : String → Bool) :
    ∀ (l : List String) (p : String), findFirstRoot ex l = some p →
      ∃ i : Nat, l[i]? = some p ∧ rootOk ex p = true ∧
        ∀ k, k < i → ∀ q, l[k]? = some q → rootOk ex q = false := by
  intro l
  induction l with
  | nil => intro p h; simp [findFirstRoot] at h
  | cons a tl ih =>
    intro p h
    rw [findFirstRoot] at h
    by_cases ha : rootOk ex a = true
    · rw [if_pos ha] at h
      obtain rfl : a = p := by simpa using h
      exact ⟨0, by simp, ha, fun k hk => by omega⟩
    · rw [if_neg ha] at h
      obtain ⟨i, hget, hok, hbefore⟩ := ih p h
      refine ⟨i + 1, by simpa using hget, hok, ?_⟩
      intro k hk q hq
      cases k with
      | zero =>
        obtain rfl : a = q := by simpa using hq
        exact Bool.not_eq_true _ ▸ (by simpa using ha)
      | succ k =>
        exact hbefore k (by omega) q (by simpa using hq)

/-- The probing loop fails exactly when no candidate qualifies. -/
theorem findFirstRoot_none (ex : String → Bool) :
    ∀ l : List String, (∀ p ∈ l, rootOk ex p = false) →
      findFirstRoot ex l = none := by
  intro l
  induction l with
  | nil => intro _; rfl
  | cons a tl ih =>
    intro h
    rw [findFirstRoot, if_neg (by simp [h a (by simp)])]
    exact ih (fun p hp => h p (List.mem_cons_of_mem a hp))

/-- C9: `_find_dataset_root` returns the first candidate path for which
both the existence check and the presence check for the `STRESS` marker
sub-directory succeed (it only reads the filesystem predicate `ex`,
performing no writes); if no candidate qualifies it raises the
dataset-not-found error naming the base directory. -/
theorem find_dataset_root_spec (ex : String → Bool) (base : String) :
    (∀ p, find_dataset_root ex base = Except.ok p →
      ex p = true ∧ ex (p ++ "/STRESS") = true ∧
      ∃ i : Nat, (possible_paths base)[i]? = some p ∧
        ∀ k, k < i → ∀ q, (possible_paths base)[k]? = some q →
          (ex q && ex (q ++ "/STRESS")) = false) ∧
    ((∀ p ∈ possible_paths base, (ex p && ex (p ++ "/STRESS")) = false) →
      find_dataset_root ex base =
        Except.error ("Could not find dataset in " ++ base ++
          ". Expected to find STRESS/, AEROBIC/, ANAEROBIC/ directories.")) := by
  constructor
  · intro p hp
    rw [find_dataset_root] at hp
    cases hfind : findFirstRoot ex (possible_paths base) with
    | none => rw [hfind] at hp; simp at hp
    | some q =>
      rw [hfind] at hp
      obtain rfl : q = p := by simpa using hp
      obtain ⟨i, hget, hok, hbefore⟩ := findFirstRoot_some_iff ex _ q hfind
      rw [rootOk] at hok
      refine ⟨?_, ?_, i, hget, fun k hk q' hq' => ?_⟩
      · exact (Bool.and_eq_true_iff.mp hok).1
      · exact (Bool.and_eq_true_iff.mp hok).2
      · have := hbefore k hk q' hq'
        rw [rootOk] at this
        exact this
  · intro hall
    rw [find_dataset_root,
      findFirstRoot_none ex _ (fun p hp => by rw [rootOk]; exact hall p hp)]

/-- Witness for C9: a filesystem in which only the base directory itself
qualifies: the first two candidates fail their checks, and the probe
returns the third (the base). -/
theorem find_dataset_root_spec_witness :
    ∃ i : Nat, (possible_paths "data")[i]? = some "data" ∧
      ∀ k, k < i → ∀ q, (possible_paths "data")[k]? = some q →
        ((fun s => s == "data" || s == "data/STRESS") q &&
         (fun s => s == "data" || s == "data/STRESS") (q ++ "/STRESS")) = false :=
  ((find_dataset_root_spec (fun s => s == "data" || s == "data/STRESS")
    "data").1 "data" (by rfl)).2.2

/-- C5: start-time parsing tries the two representations in order: the
epoch-seconds parse first; only when it fails, the datetime parse, with
UTC localization when the parsed value carries no zone; when both fail it
raises `DataQualityError` whose message names the offending raw value;
and at the subject-session level that error is caught so that only the
failing file is skipped — the load result is the same as if that one
file were absent, the remaining signal files still processed. -/
theorem parse_start_time_spec (floatParse : String → Option ℚ)
    (dtParse : String → Option ParsedDatetime) (v : String) :
    (∀ x, floatParse v = some x →
      parse_start_time floatParse dtParse v = Except.ok (epoch_to_utc x)) ∧
    (floatParse v = none → ∀ t, dtParse v = some (ParsedDatetime.aware t) →
      parse_start_time floatParse dtParse v = Except.ok t) ∧
    (floatParse v = none → ∀ w, dtParse v = some (ParsedDatetime.naive w) →
      parse_start_time floatParse dtParse v =
        Except.ok (tz_localize_utc w)) ∧
    (floatParse v = none → dtParse v = none →
      parse_start_time floatParse dtParse v =
        Except.error ("Cannot parse start time: " ++ v)) ∧
    (∀ (env : String → Option RawFile) (dirExists : Bool)
        (subject_id session_type : String) (inc : Bool) (ok : Nat → Bool)
        (store : Store) (fn : String) (raw : RawFile) (e : String),
      env fn = some raw →
      parse_empatica_csv floatParse dtParse raw = Except.error e →
      load_subject_session floatParse dtParse env dirExists subject_id
        session_type inc ok store =
      load_subject_session floatParse dtParse
        (fun g => if g = fn then none else env g) dirExists subject_id
        session_type inc ok store) := by
  refine ⟨?_, ?_, ?_, ?_, ?_⟩
  · intro x hx
    simp [parse_start_time, hx]
  · intro hf t ht
    simp [parse_start_time, hf, ht]
  · intro hf w hw
    simp [parse_start_time, hf, hw]
  · intro hf hd
    simp [parse_start_time, hf, hd]
  · intro env dirExists subject_id session_type inc ok store fn raw e
      henv hparse
    have hcongr : ∀ (sid : String),
        signal_files.filterMap
          (processFile floatParse dtParse env subject_id sid session_type) =
        signal_files.filterMap
          (processFile floatParse dtParse
            (fun g => if g = fn then none else env g) subject_id sid
            session_type) := by
      intro sid
      apply List.filterMap_congr
      intro entry _
      by_cases hg : entry.2 = fn
      · simp [processFile, hg, henv, hparse]
      · simp [processFile, hg]
    simp only [load_subject_session]
    rw [hcongr]

/-- Witness for C5: an unparseable start-time cell produces the
`DataQualityError` message naming the raw value; a numeric cell parses as
epoch seconds. -/
theorem parse_start_time_spec_witness :
    parse_start_time (fun _ => none) (fun _ => none) "not-a-date" =
      Except.error ("Cannot parse start time: " ++ "not-a-date") ∧
    parse_start_time (fun s => if s = "1361377519.0" then some 1361377519
        else none) (fun _ => none) "1361377519.0" =
      Except.ok 1361377519 := by
  constructor
  · exact (parse_start_time_spec (fun _ => none) (fun _ => none)
      "not-a-date").2.2.2.1 rfl rfl
  · exact (parse_start_time_spec
      (fun s => if s = "1361377519.0" then some 1361377519 else none)
      (fun _ => none) "1361377519.0").1 1361377519 rfl

/-- C8: `load_subject_session` returns `none` and writes nothing to
either store table when the classifier decides skip (for any
`include_problematic`, covering the hard-excluded subjects) or when no
signal file was successfully processed (all missing or all failing to
decode); and the session-metadata row is written only when at least one
measurement record was produced: on a record-less combined set the
metadata step raises (`KeyError` on the missing timestamp column) before
any write, so a normal return whose sessions table changed implies a
non-empty combined record set. -/
theorem load_subject_session_no_data (floatParse : String → Option ℚ)
    (dtParse : String → Option ParsedDatetime) (env : String → Option RawFile)
    (dirExists : Bool) (subject_id session_type : String) (inc : Bool)
    (ok : Nat → Bool) (store : Store) :
    ((should_skip_subject subject_id session_type inc).1 = true →
      load_subject_session floatParse dtParse env dirExists subject_id
        session_type inc ok store = Except.ok (store, none)) ∧
    ((∀ entry ∈ signal_files,
        processFile floatParse dtParse env subject_id
          (subject_id ++ "_" ++ session_type) session_type entry = none) →
      load_subject_session floatParse dtParse env dirExists subject_id
        session_type inc ok store = Except.ok (store, none)) ∧
    (∀ s r, load_subject_session floatParse dtParse env dirExists subject_id
        session_type inc ok store = Except.ok (s, r) →
      s.sessions ≠ store.sessions →
      (signal_files.filterMap
        (processFile floatParse dtParse env subject_id
          (subject_id ++ "_" ++ session_type) session_type)).flatten ≠
        []) := by
  refine ⟨?_, ?_, ?_⟩
  · intro hsk
    simp [load_subject_session, hsk]
  · intro hall
    have hempty : signal_files.filterMap
        (processFile floatParse dtParse env subject_id
          (subject_id ++ "_" ++ session_type) session_type) = [] :=
      List.filterMap_eq_nil_iff.mpr hall
    by_cases hsk : (should_skip_subject subject_id session_type inc).1
    · simp [load_subject_session, hsk]
    · by_cases hd : dirExists
      · simp [load_subject_session, hsk, hd, hempty]
      · simp [load_subject_session, hsk, hd]
  · intro s r hload hneq
    by_cases hsk : (should_skip_subject subject_id session_type inc).1
    · simp [load_subject_session, hsk] at hload
      exact absurd (by rw [hload.1]) hneq
    · by_cases hd : dirExists
      · by_cases hemp : (signal_files.filterMap
            (processFile floatParse dtParse env subject_id
              (subject_id ++ "_" ++ session_type) session_type)).isEmpty
        · simp [load_subject_session, hsk, hd, hemp] at hload
          exact absurd (by rw [hload.1]) hneq
        · intro hflat
          simp [load_subject_session, hsk, hd, hemp, hflat,
            upload_to_bigquery, batches, numBatches, uploadChunksFrom,
            create_session_metadata] at hload
      · simp [load_subject_session, hsk, hd] at hload
        exact absurd (by rw [hload.1]) hneq

/-- Witness for C8: subject S12 in AEROBIC carries the hard issue
`test_not_performed`; even with `include_problematic = true` the load
returns `none` and writes nothing. -/
theorem load_subject_session_no_data_witness :
    load_subject_session (fun _ => none) (fun _ => none) (fun _ => none)
        true "S12" "AEROBIC" true (fun _ => true) ⟨[], []⟩ =
      Except.ok (⟨[], []⟩, none) :=
  (load_subject_session_no_data (fun _ => none) (fun _ => none)
    (fun _ => none) true "S12" "AEROBIC" true (fun _ => true) ⟨[], []⟩).1 rfl

/-- C10: the session-metadata write is sequenced strictly after the whole
chunked measurement upload; whenever `load_subject_session` raises — in
particular when a chunk upload fails — the exception propagates and the
session-metadata table is exactly as it was before the call. -/
theorem upload_failure_no_metadata (floatParse : String → Option ℚ)
    (dtParse : String → Option ParsedDatetime) (env : String → Option RawFile)
    (dirExists : Bool) (subject_id session_type : String) (inc : Bool)
    (ok : Nat → Bool) (store s : Store) :
    load_subject_session floatParse dtParse env dirExists subject_id
      session_type inc ok store = Except.error s →
    s.sessions = store.sessions := by
  intro h
  by_cases hsk : (should_skip_subject subject_id session_type inc).1
  · simp [load_subject_session, hsk] at h
  · by_cases hd : dirExists
    · by_cases hemp : (signal_files.filterMap
          (processFile floatParse dtParse env subject_id
            (subject_id ++ "_" ++ session_type) session_type)).isEmpty
      · simp [load_subject_session, hsk, hd, hemp] at h
      · simp only [load_subject_session, hsk, hd, hemp, if_false, if_true,
          Bool.false_eq_true, not_true, not_false_iff, ite_false,
          ite_true] at h
        rcases hup : upload_to_bigquery store
            ((signal_files.filterMap
              (processFile floatParse dtParse env subject_id
                (subject_id ++ "_" ++ session_type)
                session_type)).flatten) 50000 ok with s' | s'
        · rw [hup] at h
          simp at h
          rw [upload_to_bigquery] at hup
          rw [← h]
          exact (uploadChunksFrom_sessions ok _ 0 store).2 s' hup
        · rw [hup] at h
          rcases hmeta : create_session_metadata
              (subject_id ++ "_" ++ session_type) subject_id session_type
              ((signal_files.filterMap
                (processFile floatParse dtParse env subject_id
                  (subject_id ++ "_" ++ session_type)
                  session_type)).flatten)
              (should_skip_subject subject_id session_type inc).2 with e | m
          · rw [hmeta] at h
            simp at h
            rw [upload_to_bigquery] at hup
            rw [← h]
            exact (uploadChunksFrom_sessions ok _ 0 store).1 s' hup
          · rw [hmeta] at h
            simp at h
    · simp [load_subject_session, hsk, hd] at h

/-- Witness for C10: a one-record session whose first chunk write fails:
the load raises, the store (both tables) is unchanged, and in particular
no metadata row was written. -/
theorem upload_failure_no_metadata_witness :
    (⟨[], []⟩ : Store).sessions = (⟨[], []⟩ : Store).sessions :=
  upload_failure_no_metadata (fun _ => some 0) (fun _ => none)
    (fun g => if g = "IBI.csv" then some ⟨"0", 64, [[1, 2]]⟩ else none)
    true "S01" "STRESS" false (fun _ => false) ⟨[], []⟩ ⟨[], []⟩ (by rfl)

end Wearable
